import Mathlib

/-
Shallow embedding of the DariX C++ interpreter (shayanheidari01/DariX,
cpp implementation under src/cpp).  Every definition below is translated
from a named function of the C++ sources; the comment above each one
points to the file and function it embeds.

Modelling conventions:
  - std::shared_ptr<Object> values are modelled by the inductive `Value`;
    the mutable InstanceObject heap is a list indexed by `Nat` ids.
  - C++ exceptions (std::runtime_error) are modelled by the `thrown`
    constructors of `EvalRes`/`ExecRes`; the carried state records the
    side effects performed before the throw, exactly as the C++ state
    survives stack unwinding.
  - Recursion through function calls and loops is bounded by an explicit
    fuel parameter (first argument, decremented on every recursive call).
    Fuel exhaustion is the distinct outcome `fuelOut`, never conflated
    with a value or an error; all concrete runs below use ample fuel.
  - `long long` is modelled by `Int` (no claim exercises 64-bit overflow)
    and `double` by `Rat` (no claim depends on IEEE-754 rounding).
-/

namespace DariX

/-- Lookup in an std::unordered_map modelled as an association list:
first binding of the key wins (keys are kept unique by mapInsert). -/
def mapFind? {α : Type} : List (String × α) → String → Option α
  | [], _ => none
  | (k, v) :: rest, key => if k = key then some v else mapFind? rest key

/-- The effect of `m[key] = value` on an std::unordered_map: replace the
binding when the key is present, otherwise add a new binding. -/
def mapInsert {α : Type} : List (String × α) → String → α → List (String × α)
  | [], key, value => [(key, value)]
  | (k, v) :: rest, key, value =>
      if k = key then (key, value) :: rest else (k, v) :: mapInsert rest key value

theorem mapFind?_mapInsert_self {α : Type} (l : List (String × α)) (k : String) (v : α) :
    mapFind? (mapInsert l k v) k = some v := by
  induction l with
  | nil => simp [mapInsert, mapFind?]
  | cons hd tl ih =>
      obtain ⟨k', v'⟩ := hd
      by_cases h : k' = k
      · simp [mapInsert, mapFind?, h]
      · simp [mapInsert, mapFind?, h, ih]

theorem mapFind?_mapInsert_ne {α : Type} (l : List (String × α)) (k q : String) (v : α)
    (h : q ≠ k) : mapFind? (mapInsert l k v) q = mapFind? l q := by
  have hkq : k ≠ q := fun he => h he.symm
  induction l with
  | nil => simp [mapInsert, mapFind?, hkq]
  | cons hd tl ih =>
      obtain ⟨k', v'⟩ := hd
      by_cases hk : k' = k
      · subst hk
        simp [mapInsert, mapFind?, hkq]
      · simp [mapInsert, mapFind?, hk, ih]

theorem mapInsert_of_find?_none {α : Type} (l : List (String × α)) (k : String) (v : α)
    (h : mapFind? l k = none) : mapInsert l k v = l ++ [(k, v)] := by
  induction l with
  | nil => simp [mapInsert]
  | cons hd tl ih =>
      obtain ⟨k', v'⟩ := hd
      by_cases hk : k' = k
      · simp [mapFind?, hk] at h
      · simp [mapFind?, hk] at h
        simp [mapInsert, hk, ih h]

theorem mapFind?_sizeOf {α : Type} [SizeOf α] (l : List (String × α)) (k : String) (w : α)
    (h : mapFind? l k = some w) : sizeOf w < sizeOf l := by
  induction l with
  | nil => simp [mapFind?] at h
  | cons hd tl ih =>
      obtain ⟨k', v'⟩ := hd
      by_cases hk : k' = k
      · simp [mapFind?, hk] at h
        subst h
        simp only [List.cons.sizeOf_spec, Prod.mk.sizeOf_spec]
        omega
      · simp [mapFind?, hk] at h
        have := ih h
        simp only [List.cons.sizeOf_spec]
        omega

/-- TokenType from include/token.h. -/
inductive TokenType where
  | CLASS | FUNC | VAR | IF | ELSE | WHILE | FOR | RETURN | TRY | CATCH | FINALLY
  | TRUE | FALSE | NULL
  | PLUS | MINUS | MULTIPLY | DIVIDE | MODULO
  | EQUAL | EQUAL_EQUAL | BANG | BANG_EQUAL
  | LESS | LESS_EQUAL | GREATER | GREATER_EQUAL
  | AND | OR | NOT
  | LEFT_PAREN | RIGHT_PAREN | LEFT_BRACE | RIGHT_BRACE
  | LEFT_BRACKET | RIGHT_BRACKET | COMMA | DOT | SEMICOLON | COLON
  | IDENTIFIER | STRING | NUMBER
  | EOF_TOKEN
deriving DecidableEq, Repr

/-- Token from include/token.h (lexeme plus position). -/
structure Tok where
  type : TokenType
  lexeme : String
  line : Nat
  column : Nat
deriving DecidableEq, Repr

/-- Expression AST from include/ast.h.  The operator of BinaryExpr and
UnaryExpr is kept as its TokenType, as in the C++ `Token op_` field. -/
inductive Expr where
  | literal (value : String)
  | number (value : Rat)
  | stringE (value : String)
  | boolE (value : Bool)
  | nullE
  | variableE (name : String)
  | binary (left : Expr) (op : TokenType) (right : Expr)
  | unary (op : TokenType) (right : Expr)
  | call (callee : Expr) (arguments : List Expr)
  | arrayE (elements : List Expr)
  | mapE (pairs : List (Expr × Expr))
  | member (object : Expr) (property : String)
  | index (collection : Expr) (idx : Expr)
  | assign (target : Expr) (value : Expr)

/-- Statement AST from include/ast.h.  A ClassDecl method is the triple
(name, params, body) of its FuncDecl. -/
inductive Stmt where
  | exprStmt (expression : Expr)
  | varDecl (name : String) (initializer : Option Expr)
  | funcDecl (name : String) (params : List String) (body : List Stmt)
  | classDecl (name : String) (methods : List (String × List String × List Stmt))
  | ifStmt (condition : Expr) (thenBranch elseBranch : List Stmt)
  | whileStmt (condition : Expr) (body : List Stmt)
  | forStmt (initializer : Option Stmt) (condition : Option Expr)
      (increment : Option Expr) (body : List Stmt)
  | returnStmt (value : Option Expr)
  | tryStmt (tryBody : List Stmt) (catchVar : String)
      (catchBody finallyBody : List Stmt)
  | blockStmt (statements : List Stmt)

/-- The native callables installed by defineBuiltins (src/builtins.cpp). -/
inductive NativeFn where
  | printB | lenB | typeB | absB | strB | intB | floatB
deriving DecidableEq, Repr

/-- The body of a FunctionObject (include/object.h).  User functions carry
the FuncDecl data captured by the lambda in Interpreter::executeFuncDecl;
class methods carry the stub lambda of executeClassDecl, which ignores
its arguments and returns Null; natives are enumerated. -/
inductive FuncImpl where
  | user (params : List String) (body : List Stmt)
  | methodStub
  | native (fn : NativeFn)

/-- Runtime values, mirroring the Object hierarchy of include/object.h.
`instanceRef` is an index into the interpreter state's instance heap,
modelling the shared_ptr identity of an InstanceObject. -/
inductive Value where
  | integer (value : Int)
  | float (value : Rat)
  | str (value : String)
  | boolean (value : Bool)
  | nullV
  | array (elements : List Value)
  | mapV (entries : List (String × Value))
  | function (name : String) (impl : FuncImpl) (arity : Nat)
  | classV (name : String) (methods : List (String × Value))
  | instanceRef (id : Nat)

/-- ObjectType test `type() == ObjectType::INTEGER`. -/
def Value.isIntT : Value → Bool
  | .integer _ => true
  | _ => false

/-- ObjectType test `type() == ObjectType::FLOAT`. -/
def Value.isFloatT : Value → Bool
  | .float _ => true
  | _ => false

/-- Numeric test used by Interpreter::checkNumberOperand(s)
(interpreter.cpp:480-490). -/
def isNumber : Value → Bool
  | .integer _ => true
  | .float _ => true
  | _ => false

/-- The widening `type()==FLOAT ? FloatObject value : IntegerObject cast`
used throughout evaluateBinary.  The catch-all arm corresponds to an
invalid C++ downcast (undefined behaviour); it is reachable only on paths
the C++ code leaves undefined and no verified claim evaluates it. -/
def asDouble : Value → Rat
  | .float q => q
  | .integer i => (i : Rat)
  | _ => 0

/-- Interpreter::isTruthy (interpreter.cpp:467-473): only Null and the
Boolean false are falsy. -/
def isTruthy : Value → Bool
  | .nullV => false
  | .boolean b => b
  | _ => true

mutual

/-- Interpreter::isEqual (interpreter.cpp:475-478) combined with the
Object::equals overrides of src/object.cpp: same type tag required, then
structural equality for Array/Map, name equality for Function/Class, and
identity (heap id) for Instance. -/
def isEqual : Value → Value → Bool
  | .integer a, .integer b => a == b
  | .float a, .float b => a == b
  | .str a, .str b => a == b
  | .boolean a, .boolean b => a == b
  | .nullV, .nullV => true
  | .array as, .array bs => as.length == bs.length && isEqualList as bs
  | .mapV as, .mapV bs => as.length == bs.length && mapEntriesEq as bs
  | .function n _ _, .function m _ _ => n == m
  | .classV n _, .classV m _ => n == m
  | .instanceRef i, .instanceRef j => i == j
  | _, _ => false

/-- Elementwise loop of ArrayObject::equals (object.cpp:42-50); only
invoked after the length check. -/
def isEqualList : List Value → List Value → Bool
  | a :: as, b :: bs => isEqual a b && isEqualList as bs
  | _, _ => true

/-- Per-key loop of MapObject::equals (object.cpp:73-83): every key of the
left map must be found in the right map with an equal value. -/
def mapEntriesEq : List (String × Value) → List (String × Value) → Bool
  | [], _ => true
  | (k, v) :: rest, other =>
      (match mapFind? other k with
       | some w => isEqual v w
       | none => false) && mapEntriesEq rest other

end

/-- Six-fractional-digit rendering of a Nat, zero-padded (the fractional
part of printf %f). -/
def pad6 (n : Nat) : String :=
  let s := toString n
  String.mk (List.replicate (6 - s.length) '0') ++ s

/-- std::to_string(double): %f formatting with six decimals.  Rounding of
the exact rational approximates printf (IEEE-754 double rounding is not
modelled); no verified claim formats a Float. -/
def floatToString (q : Rat) : String :=
  let a : Rat := |q| * 1000000 + 1 / 2
  let scaled : Int := a.floor
  let ip := scaled / 1000000
  let fp := (scaled % 1000000).toNat
  (if q < 0 then "-" else "") ++ toString ip ++ "." ++ pad6 fp

mutual

/-- Object::toString of each variant (include/object.h, src/object.cpp).
Map entries are rendered in insertion order (the C++ unordered_map order
is unspecified); an instance rendering omits the class name, which lives
behind the heap id.  No verified claim prints a map or an instance. -/
def valueToString : Value → String
  | .integer i => toString i
  | .float q => floatToString q
  | .str s => "\"" ++ s ++ "\""
  | .boolean b => if b then "true" else "false"
  | .nullV => "null"
  | .array es => "[" ++ String.intercalate ", " (valueListStrings es) ++ "]"
  | .mapV entries => "\x7b" ++ String.intercalate ", " (mapEntryStrings entries) ++ "\x7d"
  | .function n _ _ => "<function " ++ n ++ ">"
  | .classV n _ => "<class " ++ n ++ ">"
  | .instanceRef _ => "<instance>"

/-- Element renderings for ArrayObject::toString (object.cpp:31-40). -/
def valueListStrings : List Value → List String
  | [] => []
  | v :: vs => valueToString v :: valueListStrings vs

/-- Entry renderings for MapObject::toString (object.cpp:60-71). -/
def mapEntryStrings : List (String × Value) → List String
  | [] => []
  | (k, v) :: rest => ("\"" ++ k ++ "\": " ++ valueToString v) :: mapEntryStrings rest

end

/-- Model of std::stoll on a literal lexeme: optional sign then the longest
digit prefix; none when no digit can be consumed (C++ throws
std::invalid_argument there).  Leading whitespace and base prefixes are not
modelled; lexer-produced lexemes are plain digit runs. -/
def stollModel (s : String) : Option Int :=
  let (sign, rest) : Int × List Char :=
    match s.toList with
    | '-' :: r => (-1, r)
    | '+' :: r => (1, r)
    | r => (1, r)
  let digits := rest.takeWhile (fun c => c.isDigit)
  if digits.isEmpty then none
  else some (sign * (digits.foldl (fun acc c => acc * 10 + (c.toNat - '0'.toNat)) 0 : Nat))

/-- Model of std::stod on a literal lexeme: optional sign, digit run,
optional point and digit run; none when no digit is consumed (C++ throws).
Exponent forms are not modelled; no verified claim parses one. -/
def stodModel (s : String) : Option Rat :=
  let (sign, rest) : Rat × List Char :=
    match s.toList with
    | '-' :: r => (-1, r)
    | '+' :: r => (1, r)
    | r => (1, r)
  let ipDigits := rest.takeWhile (fun c => c.isDigit)
  let rest2 := rest.dropWhile (fun c => c.isDigit)
  let ipVal : Rat := (ipDigits.foldl (fun acc c => acc * 10 + (c.toNat - '0'.toNat)) 0 : Nat)
  match rest2 with
  | '.' :: r3 =>
      let fpDigits := r3.takeWhile (fun c => c.isDigit)
      let fpVal : Rat := (fpDigits.foldl (fun acc c => acc * 10 + (c.toNat - '0'.toNat)) 0 : Nat)
      if ipDigits.isEmpty && fpDigits.isEmpty then none
      else some (sign * (ipVal + fpVal / (10 : Rat) ^ fpDigits.length))
  | _ => if ipDigits.isEmpty then none else some (sign * ipVal)

/-- Interpreter::evaluateLiteral (interpreter.cpp:62-73): a lexeme with a
dot parses as Float, otherwise as Integer; on a parse exception the lexeme
becomes a String value. -/
def parseLiteralValue (s : String) : Value :=
  if s.toList.contains '.' then
    match stodModel s with
    | some q => .float q
    | none => .str s
  else
    match stollModel s with
    | some i => .integer i
    | none => .str s

/-- static_cast<long long> applied to a double: truncation toward zero. -/
def truncRat (q : Rat) : Int :=
  if q < 0 then ⌈q⌉ else ⌊q⌋

/-- Operator dispatch of Interpreter::evaluateBinary (interpreter.cpp:95-194)
on the two already-evaluated operands.  `.error` is the std::runtime_error
thrown by checkNumberOperands; arms that `break` out of the switch fall
through to `return makeNull()`. -/
def applyBinary (op : TokenType) (l r : Value) : Except String Value :=
  match op with
  | .PLUS =>
      match l, r with
      | .integer a, .integer b => .ok (.integer (a + b))
      | _, _ =>
          if l.isFloatT || r.isFloatT then .ok (.float (asDouble l + asDouble r))
          else
            match l, r with
            | .str a, .str b => .ok (.str (a ++ b))
            | _, _ => .ok .nullV
  | .MINUS =>
      if !(isNumber l && isNumber r) then .error "Operands must be numbers."
      else
        match l, r with
        | .integer a, .integer b => .ok (.integer (a - b))
        | _, _ => .ok (.float (asDouble l - asDouble r))
  | .MULTIPLY =>
      if !(isNumber l && isNumber r) then .error "Operands must be numbers."
      else
        match l, r with
        | .integer a, .integer b => .ok (.integer (a * b))
        | _, _ => .ok (.float (asDouble l * asDouble r))
  | .DIVIDE =>
      -- both operands widened to double even for Integer/Integer
      -- (interpreter.cpp:145-153); division by zero is unreached here
      if !(isNumber l && isNumber r) then .error "Operands must be numbers."
      else .ok (.float (asDouble l / asDouble r))
  | .MODULO =>
      -- only the Integer/Integer pair computes; any other numeric pair
      -- breaks out of the switch to makeNull (interpreter.cpp:154-160)
      if !(isNumber l && isNumber r) then .error "Operands must be numbers."
      else
        match l, r with
        | .integer a, .integer b => .ok (.integer (Int.tmod a b))
        | _, _ => .ok .nullV
  | .EQUAL_EQUAL => .ok (.boolean (isEqual l r))
  | .BANG_EQUAL => .ok (.boolean (!isEqual l r))
  | .LESS =>
      if !(isNumber l && isNumber r) then .error "Operands must be numbers."
      else
        match l, r with
        | .integer a, .integer b => .ok (.boolean (decide (a < b)))
        | _, _ => .ok (.boolean (decide (asDouble l < asDouble r)))
  | .LESS_EQUAL =>
      -- interpreter.cpp:179-184: operands checked, then the arm breaks
      -- without producing a value, falling through to makeNull
      if !(isNumber l && isNumber r) then .error "Operands must be numbers."
      else .ok .nullV
  | .GREATER =>
      if !(isNumber l && isNumber r) then .error "Operands must be numbers."
      else .ok .nullV
  | .GREATER_EQUAL =>
      if !(isNumber l && isNumber r) then .error "Operands must be numbers."
      else .ok .nullV
  | .AND => .ok (.boolean (isTruthy l && isTruthy r))
  | .OR => .ok (.boolean (isTruthy l || isTruthy r))
  | _ => .ok .nullV

/-- Operator dispatch of Interpreter::evaluateUnary (interpreter.cpp:196-214)
on the already-evaluated operand. -/
def applyUnary (op : TokenType) (v : Value) : Except String Value :=
  match op with
  | .MINUS =>
      if !(isNumber v) then .error "Operand must be a number."
      else
        match v with
        | .integer a => .ok (.integer (-a))
        | _ => .ok (.float (-(asDouble v)))
  | .BANG => .ok (.boolean (!isTruthy v))
  | _ => .ok .nullV

/-- The `len` builtin (builtins.cpp:21-36). -/
def lenNative (args : List Value) : Value :=
  if args.length ≠ 1 then .nullV
  else
    match args with
    | .str s :: _ => .integer s.length
    | .array es :: _ => .integer es.length
    | _ => .integer 0

/-- The `type` builtin (builtins.cpp:39-56): NULL_OBJ reaches the switch
default and is reported as "null". -/
def typeNative (args : List Value) : Value :=
  if args.length ≠ 1 then .str "unknown"
  else
    match args with
    | .integer _ :: _ => .str "int"
    | .float _ :: _ => .str "float"
    | .str _ :: _ => .str "string"
    | .boolean _ :: _ => .str "bool"
    | .array _ :: _ => .str "array"
    | .mapV _ :: _ => .str "map"
    | .function _ _ _ :: _ => .str "function"
    | .classV _ _ :: _ => .str "class"
    | .instanceRef _ :: _ => .str "instance"
    | _ => .str "null"

/-- The `abs` builtin (builtins.cpp:60-75). -/
def absNative (args : List Value) : Value :=
  if args.length ≠ 1 then .nullV
  else
    match args with
    | .integer i :: _ => .integer |i|
    | .float q :: _ => .float |q|
    | _ => .nullV

/-- The `str` builtin (builtins.cpp:79-84). -/
def strNative (args : List Value) : Value :=
  if args.length ≠ 1 then .str ""
  else
    match args with
    | v :: _ => .str (valueToString v)
    | _ => .str ""

/-- The `int` builtin (builtins.cpp:87-107): conversion failure yields 0. -/
def intNative (args : List Value) : Value :=
  if args.length ≠ 1 then .integer 0
  else
    match args with
    | .integer i :: _ => .integer i
    | .float q :: _ => .integer (truncRat q)
    | .str s :: _ =>
        match stollModel s with
        | some i => .integer i
        | none => .integer 0
    | _ => .integer 0

/-- The `float` builtin (builtins.cpp:110-130): conversion failure yields
0.0. -/
def floatNative (args : List Value) : Value :=
  if args.length ≠ 1 then .float 0
  else
    match args with
    | .float q :: _ => .float q
    | .integer i :: _ => .float (i : Rat)
    | .str s :: _ =>
        match stodModel s with
        | some q => .float q
        | none => .float 0
    | _ => .float 0

/-- ClassObject (include/object.h): name and method table; the stored
method values are FunctionObjects. -/
structure ClassObj where
  name : String
  methods : List (String × Value)

/-- InstanceObject (include/object.h): its class (copied at instantiation,
object.cpp:111-113) and its mutable field map. -/
structure InstanceObj where
  cls : ClassObj
  fields : List (String × Value)

/-- InstanceObject::getMethod (object.cpp:134-140). -/
def InstanceObj.getMethod (inst : InstanceObj) (name : String) : Option Value :=
  mapFind? inst.cls.methods name

/-- InstanceObject::get (object.cpp:115-128): the field map is consulted
first; otherwise a class method of that name is inserted into the field
map (`fields_[property] = method`) and returned; otherwise Null.  The
returned pair carries the possibly mutated instance. -/
def InstanceObj.get (inst : InstanceObj) (property : String) : Value × InstanceObj :=
  match mapFind? inst.fields property with
  | some v => (v, inst)
  | none =>
      match inst.getMethod property with
      | some m => (m, ⟨inst.cls, mapInsert inst.fields property m⟩)
      | none => (.nullV, inst)

/-- InstanceObject::set (object.cpp:130-132). -/
def InstanceObj.set (inst : InstanceObj) (property : String) (v : Value) : InstanceObj :=
  ⟨inst.cls, mapInsert inst.fields property v⟩

/-- One Environment frame (include/environment.h): the name-to-Value map
plus the index of the enclosing frame in the interpreter's frame store
(modelling the shared_ptr<Environment> enclosing_). -/
structure Frame where
  values : List (String × Value)
  enclosing : Option Nat

/-- Environment::define (environment.cpp:9-11) on the frame store. -/
def storeDefine (store : List Frame) (id : Nat) (name : String) (v : Value) : List Frame :=
  match store.get? id with
  | some f => store.set id ⟨mapInsert f.values name v, f.enclosing⟩
  | none => store

/-- Environment::get (environment.cpp:13-25) on the frame store: walk the
enclosing chain outward; an undefined name yields Null, never an error.
The fuel bounds the walk; call sites pass the store size, which always
covers the chain because frames only enclose previously created ones. -/
def storeGet : Nat → List Frame → Nat → String → Value
  | 0, _, _, _ => .nullV
  | fuel + 1, store, id, name =>
      match store.get? id with
      | none => .nullV
      | some f =>
          match mapFind? f.values name with
          | some v => v
          | none =>
              match f.enclosing with
              | some parent => storeGet fuel store parent name
              | none => .nullV

/-- Environment::assign (environment.cpp:27-41) on the frame store: mutate
the first frame on the chain that defines the name; otherwise recurse into
the enclosing frame; when the chain runs out, define the name in the frame
that has no enclosing frame. -/
def storeAssign : Nat → List Frame → Nat → String → Value → List Frame
  | 0, store, _, _, _ => store
  | fuel + 1, store, id, name, v =>
      match store.get? id with
      | none => store
      | some f =>
          if (mapFind? f.values name).isSome then
            store.set id ⟨mapInsert f.values name v, f.enclosing⟩
          else
            match f.enclosing with
            | some parent => storeAssign fuel store parent name v
            | none => store.set id ⟨mapInsert f.values name v, f.enclosing⟩

/-- Interpreter state (include/interpreter.h): the frame store with the
current environment_ index (globals_ is frame 0 and is never reassigned),
the InstanceObject heap, lastResult_ (a null shared_ptr at start, hence
Option), and the lines print has written to stdout. -/
structure InterpState where
  store : List Frame
  env : Nat
  instances : List InstanceObj
  lastResult : Option Value
  output : List String

/-- defineBuiltins (src/builtins.cpp): contents of the global frame after
the Interpreter constructor ran.  print is registered through
makeFunction's default arity 0, which FunctionObject::call treats as
exempt from the arity check. -/
def initGlobals : List (String × Value) :=
  [("print", .function "print" (.native .printB) 0),
   ("len", .function "len" (.native .lenB) 1),
   ("type", .function "type" (.native .typeB) 1),
   ("abs", .function "abs" (.native .absB) 1),
   ("str", .function "str" (.native .strB) 1),
   ("int", .function "int" (.native .intB) 1),
   ("float", .function "float" (.native .floatB) 1)]

/-- Interpreter::Interpreter (interpreter.cpp:8-13): one global frame. -/
def initState : InterpState :=
  ⟨[⟨initGlobals, none⟩], 0, [], none, []⟩

/-- Result of evaluating an expression: a value, a propagating
std::runtime_error carrying the state at throw time (side effects made
before the throw survive unwinding), or fuel exhaustion. -/
inductive EvalRes where
  | val (s : InterpState) (v : Value)
  | thrown (s : InterpState) (msg : String)
  | fuelOut

/-- Result of executing a statement. -/
inductive ExecRes where
  | normal (s : InterpState)
  | thrown (s : InterpState) (msg : String)
  | fuelOut

/-- Result of evaluating an argument/element list left to right. -/
inductive ArgsRes where
  | vals (s : InterpState) (vs : List Value)
  | thrown (s : InterpState) (msg : String)
  | fuelOut

/-- Result of evaluating map-literal pairs. -/
inductive PairsRes where
  | done (s : InterpState) (entries : List (String × Value))
  | thrownP (s : InterpState) (msg : String)
  | fuelOutP

mutual

/-- Interpreter::evaluate (interpreter.cpp:28-60) with each per-node
evaluate* function (interpreter.cpp:62-298) inlined at its dispatch
site.  Fuel is decremented on every recursive call. -/
def evaluate : Nat → InterpState → Expr → EvalRes
  | 0, _, _ => .fuelOut
  | fuel + 1, s, e =>
      match e with
      | .literal v => .val s (parseLiteralValue v)
      | .number v => .val s (.float v)
      | .stringE v => .val s (.str v)
      | .boolE b => .val s (.boolean b)
      | .nullE => .val s .nullV
      | .variableE name => .val s (storeGet s.store.length s.store s.env name)
      | .binary l op r =>
          match evaluate fuel s l with
          | .val s1 lv =>
              match evaluate fuel s1 r with
              | .val s2 rv =>
                  match applyBinary op lv rv with
                  | .ok v => .val s2 v
                  | .error m => .thrown s2 m
              | other => other
          | other => other
      | .unary op r =>
          match evaluate fuel s r with
          | .val s1 v =>
              match applyUnary op v with
              | .ok w => .val s1 w
              | .error m => .thrown s1 m
          | other => other
      | .call callee args =>
          match evaluate fuel s callee with
          | .val s1 cv =>
              match evalArgs fuel s1 args with
              | .vals s2 argv =>
                  match cv with
                  | .function _ impl arity => callFunction fuel s2 impl arity argv
                  | .classV cname methods =>
                      -- evaluateCall CLASS branch (interpreter.cpp:226-234);
                      -- instantiate() copies the ClassObject
                      let id := s2.instances.length
                      let s3 : InterpState :=
                        ⟨s2.store, s2.env, s2.instances ++ [⟨⟨cname, methods⟩, []⟩],
                         s2.lastResult, s2.output⟩
                      match mapFind? methods "__init__" with
                      | some (.function _ initImpl initArity) =>
                          match callFunction fuel s3 initImpl initArity argv with
                          | .val s4 _ => .val s4 (.instanceRef id)
                          | other => other
                      | _ => .val s3 (.instanceRef id)
                  | _ => .val s2 .nullV
              | .thrown st m => .thrown st m
              | .fuelOut => .fuelOut
          | other => other
      | .arrayE elems =>
          match evalArgs fuel s elems with
          | .vals s1 vs => .val s1 (.array vs)
          | .thrown st m => .thrown st m
          | .fuelOut => .fuelOut
      | .mapE pairs =>
          match evalPairs fuel s pairs [] with
          | .done s1 entries => .val s1 (.mapV entries)
          | .thrownP st m => .thrown st m
          | .fuelOutP => .fuelOut
      | .member obj prop =>
          match evaluate fuel s obj with
          | .val s1 ov =>
              match ov with
              | .instanceRef id =>
                  match s1.instances.get? id with
                  | some inst =>
                      let p := InstanceObj.get inst prop
                      .val ⟨s1.store, s1.env, s1.instances.set id p.2,
                            s1.lastResult, s1.output⟩ p.1
                  | none => .val s1 .nullV
              | _ => .val s1 .nullV
          | other => other
      | .index coll idxE =>
          match evaluate fuel s coll with
          | .val s1 av =>
              match evaluate fuel s1 idxE with
              | .val s2 iv =>
                  match av, iv with
                  | .array es, .integer i =>
                      -- size_t cast of a long long index: reduce mod 2^64
                      -- (interpreter.cpp:273-279); out of range falls
                      -- through to makeNull
                      let idx := (i.emod (2 ^ 64)).toNat
                      if h : idx < es.length then .val s2 (es.get ⟨idx, h⟩)
                      else .val s2 .nullV
                  | _, _ => .val s2 .nullV
              | other => other
          | other => other
      | .assign target vexp =>
          match evaluate fuel s vexp with
          | .val s1 v =>
              match target with
              | .variableE name =>
                  .val ⟨storeAssign s1.store.length s1.store s1.env name v,
                        s1.env, s1.instances, s1.lastResult, s1.output⟩ v
              | .member obj prop =>
                  match evaluate fuel s1 obj with
                  | .val s2 ov =>
                      match ov with
                      | .instanceRef id =>
                          match s2.instances.get? id with
                          | some inst =>
                              .val ⟨s2.store, s2.env,
                                    s2.instances.set id (InstanceObj.set inst prop v),
                                    s2.lastResult, s2.output⟩ v
                          | none => .val s2 v
                      | _ => .val s2 v
                  | other => other
              | _ => .val s1 v
          | other => other

/-- Argument collection loop of evaluateCall / evaluateArray
(interpreter.cpp:219-222, 240-246): strict left-to-right evaluation. -/
def evalArgs : Nat → InterpState → List Expr → ArgsRes
  | 0, _, _ => .fuelOut
  | _ + 1, s, [] => .vals s []
  | fuel + 1, s, e :: rest =>
      match evaluate fuel s e with
      | .val s1 v =>
          match evalArgs fuel s1 rest with
          | .vals s2 vs => .vals s2 (v :: vs)
          | other => other
      | .thrown st m => .thrown st m
      | .fuelOut => .fuelOut

/-- Pair loop of Interpreter::evaluateMap (interpreter.cpp:248-258): the
key is evaluated first; when it is not a String the value expression is
not evaluated and the pair is silently dropped. -/
def evalPairs : Nat → InterpState → List (Expr × Expr) →
    List (String × Value) → PairsRes
  | 0, _, _, _ => .fuelOutP
  | _ + 1, s, [], acc => .done s acc
  | fuel + 1, s, (ke, ve) :: rest, acc =>
      match evaluate fuel s ke with
      | .val s1 kv =>
          match kv with
          | .str ks =>
              match evaluate fuel s1 ve with
              | .val s2 vv => evalPairs fuel s2 rest (mapInsert acc ks vv)
              | .thrown st m => .thrownP st m
              | .fuelOut => .fuelOutP
          | _ => evalPairs fuel s1 rest acc
      | .thrown st m => .thrownP st m
      | .fuelOut => .fuelOutP

/-- Interpreter::callFunction (interpreter.cpp:492-495) →
FunctionObject::call (object.cpp:98-104) → the stored callable.  An arity
mismatch with nonzero arity silently returns Null — object.cpp:100 reads
"Error handling would go here" — and an arity of 0 exempts the call from
the check entirely.  A user function runs the lambda built by
executeFuncDecl (interpreter.cpp:338-366): a fresh child frame of the
CALL-time environment (the lambda reads environment_ when invoked, so no
definition-site environment is captured), parameters bound in order (the
arity check makes zip exact on every reachable call), the body executed
with every escaping exception swallowed by `catch (...)`, and the local
`result` — initialised to Null and never reassigned — returned. -/
def callFunction : Nat → InterpState → FuncImpl → Nat → List Value → EvalRes
  | 0, _, _, _, _ => .fuelOut
  | fuel + 1, s, impl, arity, args =>
      if args.length ≠ arity ∧ arity ≠ 0 then .val s .nullV
      else
        match impl with
        | .user params body =>
            let funcEnv := s.store.length
            let bound := (params.zip args).foldl
              (fun acc pa => mapInsert acc pa.1 pa.2) []
            let previousEnv := s.env
            let s1 : InterpState :=
              ⟨s.store ++ [⟨bound, some s.env⟩], funcEnv,
               s.instances, s.lastResult, s.output⟩
            match execList fuel s1 body with
            | .normal s2 =>
                .val ⟨s2.store, previousEnv, s2.instances, s2.lastResult, s2.output⟩ .nullV
            | .thrown s2 _ =>
                .val ⟨s2.store, previousEnv, s2.instances, s2.lastResult, s2.output⟩ .nullV
            | .fuelOut => .fuelOut
        | .methodStub => .val s .nullV
        | .native fn =>
            match fn with
            | .printB =>
                -- print (builtins.cpp:9-18): space-joined toString forms,
                -- one stdout line, result Null
                let line := String.intercalate " " (args.map valueToString)
                .val ⟨s.store, s.env, s.instances, s.lastResult, s.output ++ [line]⟩ .nullV
            | .lenB => .val s (lenNative args)
            | .typeB => .val s (typeNative args)
            | .absB => .val s (absNative args)
            | .strB => .val s (strNative args)
            | .intB => .val s (intNative args)
            | .floatB => .val s (floatNative args)

/-- Interpreter::execute (interpreter.cpp:302-324) with each per-node
execute* function (interpreter.cpp:326-463) inlined at its dispatch
site. -/
def execute : Nat → InterpState → Stmt → ExecRes
  | 0, _, _ => .fuelOut
  | fuel + 1, s, st =>
      match st with
      | .exprStmt e =>
          match evaluate fuel s e with
          | .val s1 v => .normal ⟨s1.store, s1.env, s1.instances, some v, s1.output⟩
          | .thrown s1 m => .thrown s1 m
          | .fuelOut => .fuelOut
      | .varDecl name initE =>
          match initE with
          | none =>
              .normal ⟨storeDefine s.store s.env name .nullV, s.env,
                       s.instances, s.lastResult, s.output⟩
          | some e =>
              match evaluate fuel s e with
              | .val s1 v =>
                  .normal ⟨storeDefine s1.store s1.env name v, s1.env,
                           s1.instances, s1.lastResult, s1.output⟩
              | .thrown s1 m => .thrown s1 m
              | .fuelOut => .fuelOut
      | .funcDecl name params body =>
          .normal ⟨storeDefine s.store s.env name
                     (.function name (.user params body) params.length),
                   s.env, s.instances, s.lastResult, s.output⟩
      | .classDecl name methods =>
          -- executeClassDecl (interpreter.cpp:368-384): each method becomes
          -- a FunctionObject whose callable is a stub returning Null
          let table := methods.foldl
            (fun acc m => mapInsert acc m.1 (.function m.1 .methodStub m.2.1.length)) []
          .normal ⟨storeDefine s.store s.env name (.classV name table),
                   s.env, s.instances, s.lastResult, s.output⟩
      | .ifStmt cond thenB elseB =>
          -- executeIfStmt (interpreter.cpp:386-396): branches run in the
          -- current environment, no fresh frame
          match evaluate fuel s cond with
          | .val s1 cv =>
              if isTruthy cv then execList fuel s1 thenB else execList fuel s1 elseB
          | .thrown s1 m => .thrown s1 m
          | .fuelOut => .fuelOut
      | .whileStmt cond body => whileLoop fuel s cond body
      | .forStmt initE cond inc body =>
          -- executeForStmt (interpreter.cpp:406-426): one loop frame for
          -- the whole loop; environment_ is restored only on normal exit
          let loopEnv := s.store.length
          let previousEnv := s.env
          let s1 : InterpState :=
            ⟨s.store ++ [⟨[], some s.env⟩], loopEnv, s.instances, s.lastResult, s.output⟩
          match (match initE with
                 | some i => execute fuel s1 i
                 | none => .normal s1) with
          | .normal s2 =>
              match forLoop fuel s2 cond inc body with
              | .normal s3 =>
                  .normal ⟨s3.store, previousEnv, s3.instances, s3.lastResult, s3.output⟩
              | other => other
          | other => other
      | .returnStmt vE =>
          -- executeReturnStmt (interpreter.cpp:428-434): the value lands in
          -- lastResult_, then a runtime_error "return" is thrown
          match vE with
          | none => .thrown s "return"
          | some e =>
              match evaluate fuel s e with
              | .val s1 v => .thrown ⟨s1.store, s1.env, s1.instances, some v, s1.output⟩ "return"
              | .thrown s1 m => .thrown s1 m
              | .fuelOut => .fuelOut
      | .tryStmt tryB _ catchB finallyB =>
          -- executeTryStmt (interpreter.cpp:436-451): catch (...) swallows
          -- EVERY exception (including the "return" signal) without
          -- binding anything or opening a scope; the finally body runs
          -- after the try/catch unless the catch body itself threw
          match execList fuel s tryB with
          | .normal s1 => execList fuel s1 finallyB
          | .thrown s1 _ =>
              match execList fuel s1 catchB with
              | .normal s2 => execList fuel s2 finallyB
              | other => other
          | .fuelOut => .fuelOut
      | .blockStmt stmts =>
          -- executeBlockStmt (interpreter.cpp:453-463): environment_ is
          -- restored only on normal exit
          let blockEnv := s.store.length
          let previousEnv := s.env
          let s1 : InterpState :=
            ⟨s.store ++ [⟨[], some s.env⟩], blockEnv, s.instances, s.lastResult, s.output⟩
          match execList fuel s1 stmts with
          | .normal s2 =>
              .normal ⟨s2.store, previousEnv, s2.instances, s2.lastResult, s2.output⟩
          | other => other

/-- Sequential statement execution (the `for` loops over statement vectors
in interpreter.cpp); the first escaping exception stops the walk. -/
def execList : Nat → InterpState → List Stmt → ExecRes
  | 0, _, _ => .fuelOut
  | _ + 1, s, [] => .normal s
  | fuel + 1, s, st :: rest =>
      match execute fuel s st with
      | .normal s1 => execList fuel s1 rest
      | other => other

/-- Loop of executeWhileStmt (interpreter.cpp:398-404): no per-iteration
frame. -/
def whileLoop : Nat → InterpState → Expr → List Stmt → ExecRes
  | 0, _, _, _ => .fuelOut
  | fuel + 1, s, cond, body =>
      match evaluate fuel s cond with
      | .val s1 cv =>
          if isTruthy cv then
            match execList fuel s1 body with
            | .normal s2 => whileLoop fuel s2 cond body
            | other => other
          else .normal s1
      | .thrown s1 m => .thrown s1 m
      | .fuelOut => .fuelOut

/-- Loop of executeForStmt (interpreter.cpp:415-423): a missing condition
is true; the increment expression is evaluated after the body. -/
def forLoop : Nat → InterpState → Option Expr → Option Expr → List Stmt → ExecRes
  | 0, _, _, _, _ => .fuelOut
  | fuel + 1, s, cond, inc, body =>
      match (match cond with
             | some c => evaluate fuel s c
             | none => .val s (.boolean true)) with
      | .val s1 cv =>
          if isTruthy cv then
            match execList fuel s1 body with
            | .normal s2 =>
                match (match inc with
                       | some ie => evaluate fuel s2 ie
                       | none => .val s2 .nullV) with
                | .val s3 _ => forLoop fuel s3 cond inc body
                | .thrown s3 m => .thrown s3 m
                | .fuelOut => .fuelOut
            | other => other
          else .normal s1
      | .thrown s1 m => .thrown s1 m
      | .fuelOut => .fuelOut

end

/-- Interpreter::interpret (interpreter.cpp:15-24): run the program from
the freshly constructed interpreter state; an uncaught runtime error is
printed as "Runtime error: msg" instead of crashing.  none only on fuel
exhaustion. -/
def interpret (fuel : Nat) (statements : List Stmt) : Option InterpState :=
  match execList fuel initState statements with
  | .normal s => some s
  | .thrown s m =>
      some ⟨s.store, s.env, s.instances, s.lastResult,
            s.output ++ ["Runtime error: " ++ m]⟩
  | .fuelOut => none

/-- Value component of an evaluation result. -/
def EvalRes.valueOf : EvalRes → Option Value
  | .val _ v => some v
  | _ => none

/-- State component of an evaluation result. -/
def EvalRes.stateOf : EvalRes → Option InterpState
  | .val s _ => some s
  | .thrown s _ => some s
  | .fuelOut => none

/-- Message of a propagating exception, none when no exception escaped. -/
def EvalRes.errOf : EvalRes → Option String
  | .thrown _ m => some m
  | _ => none

/-- State component of an execution result. -/
def ExecRes.stateOf : ExecRes → Option InterpState
  | .normal s => some s
  | .thrown s _ => some s
  | .fuelOut => none

/-- Message of a propagating exception, none when no exception escaped. -/
def ExecRes.errOf : ExecRes → Option String
  | .thrown _ m => some m
  | _ => none

/-- Bindings of one Environment frame in the chain view. -/
abbrev ChainFrame := List (String × Value)

/-- Environment::get (environment.cpp:13-25) on the enclosing_ chain
listed from the innermost frame outward (the pointer chain is the tail of
the list).  This is the same recursion as storeGet, in the form used for
the scope-chain claims. -/
def chainGet : List ChainFrame → String → Value
  | [], _ => .nullV
  | f :: rest, name =>
      match mapFind? f name with
      | some v => v
      | none =>
          match rest with
          | [] => .nullV
          | _ :: _ => chainGet rest name

/-- Environment::assign (environment.cpp:27-41) on the enclosing_ chain
listed from the innermost frame outward: mutate the first frame defining
the name; otherwise recurse into the enclosing frame; the frame with no
enclosing one (the end of the chain, i.e. the global frame) defines the
name when the walk finds it nowhere. -/
def chainAssign : List ChainFrame → String → Value → List ChainFrame
  | [], _, _ => []
  | f :: rest, name, v =>
      if (mapFind? f name).isSome then mapInsert f name v :: rest
      else
        match rest with
        | [] => [mapInsert f name v]
        | _ :: _ => f :: chainAssign rest name v

/-- Lexer::isDigit (lexer.cpp:183-185). -/
def isDigitC (c : Char) : Bool :=
  '0' ≤ c && c ≤ '9'

/-- Lexer::isAlpha (lexer.cpp:187-191). -/
def isAlphaC (c : Char) : Bool :=
  ('a' ≤ c && c ≤ 'z') || ('A' ≤ c && c ≤ 'Z') || c = '_'

/-- Lexer::isAlphaNumeric (lexer.cpp:193-195). -/
def isAlphaNumericC (c : Char) : Bool :=
  isAlphaC c || isDigitC c

/-- The keyword table of lexer.cpp:7-22. -/
def keywordList : List (String × TokenType) :=
  [("class", .CLASS), ("func", .FUNC), ("var", .VAR), ("if", .IF),
   ("else", .ELSE), ("while", .WHILE), ("for", .FOR), ("return", .RETURN),
   ("try", .TRY), ("catch", .CATCH), ("finally", .FINALLY),
   ("true", .TRUE), ("false", .FALSE), ("null", .NULL)]

/-- Lexer::identifierType (lexer.cpp:197-203). -/
def identifierType (s : String) : TokenType :=
  match mapFind? keywordList s with
  | some t => t
  | none => .IDENTIFIER

/-- Lexer::scanToken (lexer.cpp:73-140) on the not-yet-consumed input,
after `advance()` already consumed `c` (so the running column is col + 1).
Returns (remaining input, line, column, tokens).  A token's column field
is `column_ - (current_ - start_)` as in addToken (lexer.cpp:64-71).
Notable silent paths, each marked in the C++ only by a comment:
a lone `&` or `|` emits nothing, an unterminated string returns without a
token (lexer.cpp:148-151), and an unrecognized character falls through
the switch default ("Error handling would go here", lexer.cpp:135-137). -/
def scanStep (c : Char) (cs : List Char) (line col : Nat) (tokens : List Tok) :
    List Char × Nat × Nat × List Tok :=
  let col1 := col + 1
  if c = '(' then (cs, line, col1, tokens ++ [⟨.LEFT_PAREN, "(", line, col1 - 1⟩])
  else if c = ')' then (cs, line, col1, tokens ++ [⟨.RIGHT_PAREN, ")", line, col1 - 1⟩])
  else if c = '\x7b' then (cs, line, col1, tokens ++ [⟨.LEFT_BRACE, "\x7b", line, col1 - 1⟩])
  else if c = '\x7d' then (cs, line, col1, tokens ++ [⟨.RIGHT_BRACE, "\x7d", line, col1 - 1⟩])
  else if c = '[' then (cs, line, col1, tokens ++ [⟨.LEFT_BRACKET, "[", line, col1 - 1⟩])
  else if c = ']' then (cs, line, col1, tokens ++ [⟨.RIGHT_BRACKET, "]", line, col1 - 1⟩])
  else if c = ',' then (cs, line, col1, tokens ++ [⟨.COMMA, ",", line, col1 - 1⟩])
  else if c = '.' then (cs, line, col1, tokens ++ [⟨.DOT, ".", line, col1 - 1⟩])
  else if c = ';' then (cs, line, col1, tokens ++ [⟨.SEMICOLON, ";", line, col1 - 1⟩])
  else if c = ':' then (cs, line, col1, tokens ++ [⟨.COLON, ":", line, col1 - 1⟩])
  else if c = '+' then (cs, line, col1, tokens ++ [⟨.PLUS, "+", line, col1 - 1⟩])
  else if c = '*' then (cs, line, col1, tokens ++ [⟨.MULTIPLY, "*", line, col1 - 1⟩])
  else if c = '/' then
    match cs with
    | '/' :: r =>
        -- a // comment: consume to (not including) the newline
        let body := r.takeWhile (fun x => x != '\n')
        (r.dropWhile (fun x => x != '\n'), line, col1 + 1 + body.length, tokens)
    | _ => (cs, line, col1, tokens ++ [⟨.DIVIDE, "/", line, col1 - 1⟩])
  else if c = '%' then (cs, line, col1, tokens ++ [⟨.MODULO, "%", line, col1 - 1⟩])
  else if c = '-' then (cs, line, col1, tokens ++ [⟨.MINUS, "-", line, col1 - 1⟩])
  else if c = '!' then
    match cs with
    | '=' :: r => (r, line, col1 + 1, tokens ++ [⟨.BANG_EQUAL, "!=", line, col1 - 1⟩])
    | _ => (cs, line, col1, tokens ++ [⟨.BANG, "!", line, col1 - 1⟩])
  else if c = '=' then
    match cs with
    | '=' :: r => (r, line, col1 + 1, tokens ++ [⟨.EQUAL_EQUAL, "==", line, col1 - 1⟩])
    | _ => (cs, line, col1, tokens ++ [⟨.EQUAL, "=", line, col1 - 1⟩])
  else if c = '<' then
    match cs with
    | '=' :: r => (r, line, col1 + 1, tokens ++ [⟨.LESS_EQUAL, "<=", line, col1 - 1⟩])
    | _ => (cs, line, col1, tokens ++ [⟨.LESS, "<", line, col1 - 1⟩])
  else if c = '>' then
    match cs with
    | '=' :: r => (r, line, col1 + 1, tokens ++ [⟨.GREATER_EQUAL, ">=", line, col1 - 1⟩])
    | _ => (cs, line, col1, tokens ++ [⟨.GREATER, ">", line, col1 - 1⟩])
  else if c = '&' then
    match cs with
    | '&' :: r => (r, line, col1 + 1, tokens ++ [⟨.AND, "&&", line, col1 - 1⟩])
    | _ => (cs, line, col1, tokens)
  else if c = '|' then
    match cs with
    | '|' :: r => (r, line, col1 + 1, tokens ++ [⟨.OR, "||", line, col1 - 1⟩])
    | _ => (cs, line, col1, tokens)
  else if c = ' ' then (cs, line, col1, tokens)
  else if c = '\r' then (cs, line, col1, tokens)
  else if c = '\t' then (cs, line, col1, tokens)
  else if c = '\n' then (cs, line + 1, 1, tokens)
  else if c = '"' then
    let body := cs.takeWhile (fun x => x != '"')
    let rest := cs.dropWhile (fun x => x != '"')
    let line2 := line + body.count '\n'
    let col2 := col1 + body.length
    match rest with
    | [] => ([], line2, col2, tokens)
    | _ :: r2 =>
        (r2, line2, col2 + 1,
         tokens ++ [⟨.STRING, String.mk body, line2, col2 + 1 - (body.length + 2)⟩])
  else if isDigitC c then
    let ds := cs.takeWhile isDigitC
    let r1 := cs.dropWhile isDigitC
    match r1 with
    | '.' :: r2 =>
        if (match r2 with | d :: _ => isDigitC d | [] => false) then
          let fs := r2.takeWhile isDigitC
          let r3 := r2.dropWhile isDigitC
          let lex := String.mk (c :: ds ++ '.' :: fs)
          (r3, line, col1 + ds.length + 1 + fs.length,
           tokens ++ [⟨.NUMBER, lex, line, col1 + ds.length + 1 + fs.length - (2 + ds.length + fs.length)⟩])
        else
          let lex := String.mk (c :: ds)
          (r1, line, col1 + ds.length,
           tokens ++ [⟨.NUMBER, lex, line, col1 + ds.length - (1 + ds.length)⟩])
    | _ =>
        let lex := String.mk (c :: ds)
        (r1, line, col1 + ds.length,
         tokens ++ [⟨.NUMBER, lex, line, col1 + ds.length - (1 + ds.length)⟩])
  else if isAlphaC c then
    let as := cs.takeWhile isAlphaNumericC
    let r1 := cs.dropWhile isAlphaNumericC
    let lex := String.mk (c :: as)
    (r1, line, col1 + as.length,
     tokens ++ [⟨identifierType lex, lex, line, col1 + as.length - (1 + as.length)⟩])
  else (cs, line, col1, tokens)

/-- Lexer::scanTokens (lexer.cpp:26-34): scan until the input is consumed,
then append the end-of-input token at the current position.  Fuel bounds
the iteration count; every scanToken consumes at least one character, so a
fuel of the input length is always sufficient. -/
def scanLoop : Nat → List Char → Nat → Nat → List Tok → List Tok
  | _, [], line, col, tokens => tokens ++ [⟨.EOF_TOKEN, "", line, col⟩]
  | 0, _ :: _, line, col, tokens => tokens ++ [⟨.EOF_TOKEN, "", line, col⟩]
  | fuel + 1, c :: cs, line, col, tokens =>
      match scanStep c cs line col tokens with
      | (rest, line1, col1, tokens1) => scanLoop fuel rest line1 col1 tokens1

/-- Entry point matching `Lexer(source).scanTokens()`. -/
def scanTokens (source : String) : List Tok :=
  scanLoop source.length source.toList 1 1 []

/-- A character the scanToken switch recognizes at token start. -/
def recognizedStart (c : Char) : Bool :=
  c = '(' || c = ')' || c = '\x7b' || c = '\x7d' || c = '[' || c = ']' ||
  c = ',' || c = '.' || c = ';' || c = ':' || c = '+' || c = '*' || c = '/' ||
  c = '%' || c = '-' || c = '!' || c = '=' || c = '<' || c = '>' || c = '&' ||
  c = '|' || c = ' ' || c = '\r' || c = '\t' || c = '\n' || c = '"' ||
  isDigitC c || isAlphaC c

/- ------------------------------------------------------------------ -/
/- Concrete programs used by the claims. -/

/-- Execute a single declaration from the initial interpreter state, then
evaluate a call expression (the shape of every function-call claim). -/
def runCall (decl : Stmt) (e : Expr) : EvalRes :=
  match execute 100 initState decl with
  | .normal s1 => evaluate 100 s1 e
  | .thrown s m => .thrown s m
  | .fuelOut => .fuelOut

/-- Body of the Fibonacci function of spec section 8. -/
def fibBody : List Stmt :=
  [ .ifStmt (.binary (.variableE "n") .LESS (.literal "2"))
      [.returnStmt (some (.variableE "n"))] [],
    .returnStmt (some (.binary
      (.call (.variableE "f") [.binary (.variableE "n") .MINUS (.literal "1")])
      .PLUS
      (.call (.variableE "f") [.binary (.variableE "n") .MINUS (.literal "2")]))) ]

/-- The Fibonacci function of spec section 8:
`func f(n) { if (n < 2) { return n; } return f(n-1) + f(n-2); }`. -/
def fibDecl : Stmt := .funcDecl "f" ["n"] fibBody

/-- The interpreter state right after executing fibDecl. -/
def fibRunState : InterpState :=
  ⟨storeDefine initState.store 0 "f" (.function "f" (.user ["n"] fibBody) 1),
   0, [], none, []⟩

/-- `func g() { return 1; }`. -/
def retOneDecl : Stmt := .funcDecl "g" [] [.returnStmt (some (.literal "1"))]

/-- `func g() { try { return 1; } finally { print("cleanup"); } }`. -/
def tryFinallyDecl : Stmt :=
  .funcDecl "g" []
    [ .tryStmt [.returnStmt (some (.literal "1"))] "e" []
        [.exprStmt (.call (.variableE "print") [.stringE "cleanup"])] ]

/-- `func g() { try { return 1; } catch (e) { print("in-catch"); } }`. -/
def tryCatchReturnDecl : Stmt :=
  .funcDecl "g" []
    [ .tryStmt [.returnStmt (some (.literal "1"))] "e"
        [.exprStmt (.call (.variableE "print") [.stringE "in-catch"])] [] ]

/-- `try { 1 - "a"; } catch (e) { print(e); }` at top level. -/
def tryCatchBindStmt : Stmt :=
  .tryStmt [.exprStmt (.binary (.literal "1") .MINUS (.stringE "a"))] "e"
    [.exprStmt (.call (.variableE "print") [.variableE "e"])] []

/-- `func h(a, b) { return a; }`. -/
def twoParamDecl : Stmt := .funcDecl "h" ["a", "b"] [.returnStmt (some (.variableE "a"))]

/-- `func z() { print("ran"); }`. -/
def zeroParamDecl : Stmt :=
  .funcDecl "z" [] [.exprStmt (.call (.variableE "print") [.stringE "ran"])]

/- ------------------------------------------------------------------ -/
/- Claim theorems. -/

/-- Helper for C1: calling ANY user-defined function either yields Null or
runs out of fuel, whatever the body did.  This is the lambda of
executeFuncDecl verbatim: its local `result` is initialised to Null,
`catch (...)` swallows the "return" exception without touching `result`,
and `result` is returned. -/
theorem callFunction_user_yields_null (fuel : Nat) (s : InterpState)
    (params : List String) (body : List Stmt) (arity : Nat) (args : List Value) :
    (callFunction fuel s (.user params body) arity args).valueOf = some Value.nullV
    ∨ callFunction fuel s (.user params body) arity args = .fuelOut := by
  cases fuel with
  | zero => right; rfl
  | succ n =>
      simp only [callFunction]
      split
      · left; rfl
      · split
        · left; rfl
        · left; rfl
        · right; rfl

/-- C1.  The claim states that a call yields the value carried by the
`return` that terminated the body (Null only when the body falls off the
end), and that the Fibonacci function applied to 6 yields Integer 8.  The
code cannot do this: executeReturnStmt stores the value in lastResult_
and throws runtime_error("return"), but the call lambda of
executeFuncDecl catches it with an empty handler and returns its local
`result`, which is initialised to Null and never reassigned.  Conjunct 1:
every user-function call yields Null (or exhausts fuel).  Conjuncts 2-3:
concretely, `func g() { return 1; }` yields Null from its call although
lastResult_ ends up holding Integer 1, showing the return value is
computed and then discarded.  Conjunct 4: in particular f(6) cannot yield
Integer 8. -/
theorem C1_fib_call_yields_null :
    (∀ (fuel : Nat) (s : InterpState) (params : List String) (body : List Stmt)
        (arity : Nat) (args : List Value),
        (callFunction fuel s (.user params body) arity args).valueOf
          = some Value.nullV
        ∨ callFunction fuel s (.user params body) arity args = .fuelOut)
    ∧ (runCall retOneDecl (.call (.variableE "g") [])).valueOf = some Value.nullV
    ∧ ((runCall retOneDecl (.call (.variableE "g") [])).stateOf).map
        (fun s => s.lastResult) = some (some (Value.integer 1))
    ∧ (runCall fibDecl (.call (.variableE "f") [.literal "6"])).valueOf
        ≠ some (Value.integer 8) := by
  have hdecl : execute 100 initState fibDecl = .normal fibRunState := rfl
  have hargs : evalArgs 99 fibRunState [.literal "6"]
      = .vals fibRunState [.integer 6] := rfl
  have hrun : runCall fibDecl (.call (.variableE "f") [.literal "6"])
      = callFunction 99 fibRunState (.user ["n"] fibBody) 1 [.integer 6] := by
    rw [show (100 : Nat) = 99 + 1 from rfl] at hdecl
    simp only [runCall, hdecl]
    rw [show (100 : Nat) = 99 + 1 from rfl]
    simp only [evaluate, hargs]
    rw [show storeGet fibRunState.store.length fibRunState.store fibRunState.env "f"
        = Value.function "f" (FuncImpl.user ["n"] fibBody) 1 from rfl]
  refine ⟨callFunction_user_yields_null, rfl, rfl, ?_⟩
  intro hcontra
  rw [hrun] at hcontra
  rcases callFunction_user_yields_null 99 fibRunState ["n"] fibBody 1 [.integer 6]
    with h | h
  · rw [h] at hcontra
    exact Value.noConfusion (Option.some.inj hcontra)
  · rw [h] at hcontra
    exact Option.noConfusion hcontra

/-- C2.  The claim states that with `try { return 1; } finally
{ print("cleanup"); }` inside a function, finally runs exactly once and
the pending return then continues outward so the call returns Integer 1.
In the code the finally body does run exactly once (the output is exactly
the one cleanup line), but executeTryStmt's `catch (...)` swallows the
"return" exception, so nothing is left to continue outward and the call
yields Null instead of Integer 1. -/
theorem C2_finally_runs_but_return_swallowed :
    (runCall tryFinallyDecl (.call (.variableE "g") [])).valueOf
      = some Value.nullV
    ∧ ((runCall tryFinallyDecl (.call (.variableE "g") [])).stateOf).map
        (fun s => s.output) = some ["\"cleanup\""]
    ∧ (runCall tryFinallyDecl (.call (.variableE "g") [])).errOf = none :=
  ⟨rfl, rfl, rfl⟩

/-- C3.  The claim states that `1 + "a"` and `5.0 % 2` raise a TypeError
while `5 % 2` yields Integer 1.  In the code only the checked operators
(`- * /`, comparisons) throw on non-numeric operands: the PLUS arm with
an Integer/String pair and the MODULO arm with a Float operand `break`
out of the switch and silently produce Null.  `5 % 2` does yield
Integer 1, and `1 - "a"` shows the throwing path that PLUS and MODULO
lack. -/
theorem C3_arith_domain_silent_null :
    (evaluate 10 initState (.binary (.literal "1") .PLUS (.stringE "a"))).valueOf
      = some Value.nullV
    ∧ (evaluate 10 initState (.binary (.literal "1") .PLUS (.stringE "a"))).errOf = none
    ∧ (evaluate 10 initState (.binary (.number 5) .MODULO (.literal "2"))).valueOf
      = some Value.nullV
    ∧ (evaluate 10 initState (.binary (.number 5) .MODULO (.literal "2"))).errOf = none
    ∧ (evaluate 10 initState (.binary (.literal "5") .MODULO (.literal "2"))).valueOf
      = some (Value.integer 1)
    ∧ (evaluate 10 initState (.binary (.literal "1") .MINUS (.stringE "a"))).errOf
      = some "Operands must be numbers." :=
  ⟨rfl, rfl, rfl, rfl, rfl, rfl⟩

/-- C5.  The claim states that the catch body runs exactly when the try
body raises a catchable runtime error, with the error message bound as a
String to the catch variable in a fresh child scope.  In the code
executeTryStmt catches with `catch (...)` and binds nothing: a `return`
propagating out of the try body (no runtime error at all) runs the catch
body, and when a genuine TypeError is caught the catch variable `e` is
undefined, so `print(e)` prints `null` rather than the message. -/
theorem C5_catch_on_return_and_no_binding :
    ((runCall tryCatchReturnDecl (.call (.variableE "g") [])).stateOf).map
      (fun s => s.output) = some ["\"in-catch\""]
    ∧ ((execute 20 initState tryCatchBindStmt).stateOf).map
        (fun s => s.output) = some ["null"]
    ∧ (execute 20 initState tryCatchBindStmt).errOf = none :=
  ⟨rfl, rfl, rfl⟩

/-- C6.  Binary `&&` and `||` evaluate both operands unconditionally —
evaluateBinary evaluates left and right before dispatching on the
operator, so the right operand's state effects always occur — and combine
them with the truthiness coercion under which exactly Null and the
Boolean false are falsy. -/
theorem C6_logical_no_short_circuit (fuel : Nat) (s s1 s2 : InterpState)
    (a b : Expr) (v1 v2 : Value)
    (ha : evaluate fuel s a = .val s1 v1) (hb : evaluate fuel s1 b = .val s2 v2) :
    evaluate (fuel + 1) s (.binary a .AND b)
      = .val s2 (.boolean (isTruthy v1 && isTruthy v2))
    ∧ evaluate (fuel + 1) s (.binary a .OR b)
      = .val s2 (.boolean (isTruthy v1 || isTruthy v2))
    ∧ (∀ v : Value, isTruthy v = false ↔ (v = .nullV ∨ v = .boolean false)) := by
  refine ⟨?_, ?_, ?_⟩
  · simp only [evaluate, ha, hb, applyBinary]
  · simp only [evaluate, ha, hb, applyBinary]
  · intro v
    cases v <;> simp [isTruthy]

/-- The state after `x = 1` runs from the initial state. -/
def c6State : InterpState :=
  ⟨storeAssign 1 initState.store 0 "x" (.integer 1), 0, [], none, []⟩

/-- Witness for C6: in `false && (x = 1)` the left operand already decides
the result, yet the assignment on the right still executes — the final
state carries x = 1 — and the whole expression yields Boolean false. -/
theorem C6_witness :
    evaluate 6 initState
        (.binary (.boolE false) .AND (.assign (.variableE "x") (.literal "1")))
      = .val c6State (.boolean false)
    ∧ storeGet c6State.store.length c6State.store c6State.env "x"
      = .integer 1 := by
  constructor
  · exact (C6_logical_no_short_circuit 5 initState initState c6State
      (.boolE false) (.assign (.variableE "x") (.literal "1"))
      (.boolean false) (.integer 1) rfl rfl).1
  · rfl

/-- C7.  The claim states that indexing an Array out of range, with a
negative index, or with a non-Integer index raises a runtime error.  In
the code evaluateIndex checks `idx < arr->size()` after a size_t cast and
falls through to `return makeNull()` in every failing case: `[1,2][5]`,
`[1,2][-1]` and `[1,2]["0"]` all yield Null with no escaping error, while
the in-range `[1,2][1]` yields Integer 2. -/
theorem C7_index_out_of_range_silent_null :
    (evaluate 10 initState
        (.index (.arrayE [.literal "1", .literal "2"]) (.literal "5"))).valueOf
      = some Value.nullV
    ∧ (evaluate 10 initState
        (.index (.arrayE [.literal "1", .literal "2"]) (.literal "5"))).errOf = none
    ∧ (evaluate 10 initState
        (.index (.arrayE [.literal "1", .literal "2"]) (.literal "-1"))).valueOf
      = some Value.nullV
    ∧ (evaluate 10 initState
        (.index (.arrayE [.literal "1", .literal "2"]) (.stringE "0"))).valueOf
      = some Value.nullV
    ∧ (evaluate 10 initState
        (.index (.arrayE [.literal "1", .literal "2"]) (.literal "1"))).valueOf
      = some (Value.integer 2) :=
  ⟨rfl, rfl, rfl, rfl, rfl⟩

/-- C8.  The claim states that calling a function of declared arity n with
a different argument count raises an ArityError.  FunctionObject::call
instead silently returns Null on a mismatch (object.cpp:100 reads "Error
handling would go here"), and its `arity_ != 0` guard exempts arity-0
functions from the check entirely: `h(1)` on the two-parameter `h` yields
Null with no escaping error, and the zero-parameter `z` called with two
arguments runs its body. -/
theorem C8_arity_mismatch_silent_null :
    (runCall twoParamDecl (.call (.variableE "h") [.literal "1"])).valueOf
      = some Value.nullV
    ∧ (runCall twoParamDecl (.call (.variableE "h") [.literal "1"])).errOf = none
    ∧ ((runCall zeroParamDecl
          (.call (.variableE "z") [.literal "1", .literal "2"])).stateOf).map
        (fun s => s.output) = some ["\"ran\""] :=
  ⟨rfl, rfl, rfl⟩

/-- C10.  Member access on an Instance is not read-only: when the property
is absent from the field map but present in the class's method table,
InstanceObject::get executes `fields_[property] = method`, so the
returned instance carries the method appended to its fields — under which
the property now resolves as a field — and every other field is
unchanged. -/
theorem C10_member_access_memoizes_method (inst : InstanceObj) (prop : String)
    (m : Value)
    (hf : mapFind? inst.fields prop = none)
    (hm : mapFind? inst.cls.methods prop = some m) :
    InstanceObj.get inst prop = (m, ⟨inst.cls, inst.fields ++ [(prop, m)]⟩)
    ∧ mapFind? (inst.fields ++ [(prop, m)]) prop = some m
    ∧ ∀ q, q ≠ prop →
        mapFind? (inst.fields ++ [(prop, m)]) q = mapFind? inst.fields q := by
  have hins : mapInsert inst.fields prop m = inst.fields ++ [(prop, m)] :=
    mapInsert_of_find?_none _ _ _ hf
  refine ⟨?_, ?_, ?_⟩
  · simp only [InstanceObj.get, InstanceObj.getMethod, hf, hm, hins]
  · rw [← hins]
    exact mapFind?_mapInsert_self _ _ _
  · intro q hq
    rw [← hins]
    exact mapFind?_mapInsert_ne _ _ _ _ hq

/-- An instance of a class with one method and no fields yet. -/
def c10Inst : InstanceObj :=
  ⟨⟨"C", [("m", .function "m" .methodStub 0)]⟩, []⟩

/-- Witness for C10: accessing `m` on a fresh instance returns the class
method and stores it into the instance's field map. -/
theorem C10_witness :
    InstanceObj.get c10Inst "m"
      = (.function "m" .methodStub 0,
         ⟨c10Inst.cls, [("m", .function "m" .methodStub 0)]⟩) :=
  (C10_member_access_memoizes_method c10Inst "m"
    (.function "m" .methodStub 0) rfl rfl).1

/- ------------------------------------------------------------------ -/
/- C4: Environment::assign chain walk. -/

theorem chainAssign_cons_found (f : ChainFrame) (rest : List ChainFrame)
    (name : String) (v : Value) (h : (mapFind? f name).isSome = true) :
    chainAssign (f :: rest) name v = mapInsert f name v :: rest := by
  simp [chainAssign, h]

theorem chainAssign_cons_skip (f g : ChainFrame) (rest : List ChainFrame)
    (name : String) (v : Value) (h : mapFind? f name = none) :
    chainAssign (f :: g :: rest) name v = f :: chainAssign (g :: rest) name v := by
  simp [chainAssign, h]

theorem chainAssign_single_none (f : ChainFrame) (name : String) (v : Value)
    (h : mapFind? f name = none) :
    chainAssign [f] name v = [mapInsert f name v] := by
  simp [chainAssign, h]

/-- Counterexample to C4 as stated: in a two-frame chain (inner frame
first) where neither frame defines "x", assigning "x" does NOT define it
in the current innermost frame; it lands in the outermost frame. -/
theorem C4_counterexample :
    chainAssign [[], []] "x" (.integer 1) = [[], [("x", .integer 1)]]
    ∧ chainAssign [[], []] "x" (.integer 1) ≠ [[("x", .integer 1)], []] := by
  refine ⟨rfl, ?_⟩
  intro h
  rw [show chainAssign [[], []] "x" (Value.integer 1)
      = [[], [("x", Value.integer 1)]] from rfl] at h
  injection h with h1 _
  exact List.noConfusion h1

/-- C4 as amended.  Environment::assign mutates the first frame on the
chain (walking outward from the current scope) that defines the name
(part 1); when NO frame on the chain defines the name, the assignment
implicitly defines it in the OUTERMOST frame — the one with no enclosing
frame, i.e. the global frame — not in the current innermost frame
(part 2); and reading a name defined nowhere on the chain yields Null
rather than raising an error (part 3). -/
theorem C4_amended :
    (∀ (front : List ChainFrame) (f : ChainFrame) (rest : List ChainFrame)
        (name : String) (v : Value),
        (∀ g ∈ front, mapFind? g name = none) → (mapFind? f name).isSome = true →
        chainAssign (front ++ f :: rest) name v = front ++ mapInsert f name v :: rest)
    ∧ (∀ (front : List ChainFrame) (outermost : ChainFrame)
        (name : String) (v : Value),
        (∀ g ∈ front, mapFind? g name = none) → mapFind? outermost name = none →
        chainAssign (front ++ [outermost]) name v
          = front ++ [mapInsert outermost name v])
    ∧ (∀ (chain : List ChainFrame) (name : String),
        (∀ g ∈ chain, mapFind? g name = none) → chainGet chain name = Value.nullV) := by
  refine ⟨?_, ?_, ?_⟩
  · intro front
    induction front with
    | nil =>
        intro f rest name v _ hf
        simpa using chainAssign_cons_found f rest name v hf
    | cons g front' ih =>
        intro f rest name v hfront hf
        have hg : mapFind? g name = none := hfront g (by simp)
        obtain ⟨h0, t0, ht⟩ : ∃ h0 t0, front' ++ f :: rest = h0 :: t0 := by
          cases front' with
          | nil => exact ⟨f, rest, rfl⟩
          | cons a l => exact ⟨a, l ++ f :: rest, rfl⟩
        calc chainAssign ((g :: front') ++ f :: rest) name v
            = g :: chainAssign (front' ++ f :: rest) name v := by
              rw [List.cons_append, ht, chainAssign_cons_skip _ _ _ _ _ hg, ← ht]
          _ = g :: (front' ++ mapInsert f name v :: rest) := by
              rw [ih f rest name v
                (fun x hx => hfront x (List.mem_cons_of_mem g hx)) hf]
          _ = (g :: front') ++ mapInsert f name v :: rest := rfl
  · intro front
    induction front with
    | nil =>
        intro outermost name v _ hlast
        simpa using chainAssign_single_none outermost name v hlast
    | cons g front' ih =>
        intro outermost name v hfront hlast
        have hg : mapFind? g name = none := hfront g (by simp)
        obtain ⟨h0, t0, ht⟩ : ∃ h0 t0, front' ++ [outermost] = h0 :: t0 := by
          cases front' with
          | nil => exact ⟨outermost, [], rfl⟩
          | cons a l => exact ⟨a, l ++ [outermost], rfl⟩
        calc chainAssign ((g :: front') ++ [outermost]) name v
            = g :: chainAssign (front' ++ [outermost]) name v := by
              rw [List.cons_append, ht, chainAssign_cons_skip _ _ _ _ _ hg, ← ht]
          _ = g :: (front' ++ [mapInsert outermost name v]) := by
              rw [ih outermost name v
                (fun x hx => hfront x (List.mem_cons_of_mem g hx)) hlast]
          _ = (g :: front') ++ [mapInsert outermost name v] := rfl
  · intro chain
    induction chain with
    | nil => intro name _; rfl
    | cons f rest ih =>
        intro name h
        have hf : mapFind? f name = none := h f (by simp)
        cases rest with
        | nil => simp [chainGet, hf]
        | cons g t =>
            rw [show chainGet (f :: g :: t) name = chainGet (g :: t) name from by
              simp [chainGet, hf]]
            exact ih name (fun x hx => h x (List.mem_cons_of_mem f hx))

/-- Witness for C4 as amended: a defined name is mutated in the innermost
frame that defines it; an undefined name lands in the outermost frame of
a two-frame chain; an undefined read yields Null. -/
theorem C4_witness :
    chainAssign [[("x", .integer 0)], [("y", .integer 2)]] "x" (.integer 1)
      = [[("x", .integer 1)], [("y", .integer 2)]]
    ∧ chainAssign [[], []] "y" (.integer 3) = [[], [("y", .integer 3)]]
    ∧ chainGet [[], []] "z" = Value.nullV := by
  refine ⟨?_, ?_, ?_⟩
  · exact C4_amended.1 [] [("x", .integer 0)] [[("y", .integer 2)]] "x"
      (.integer 1) (by simp) rfl
  · exact C4_amended.2.1 [[]] [] "y" (.integer 3) (by simp [mapFind?]) rfl
  · exact C4_amended.2.2 [[], []] "z" (by simp [mapFind?])

/- ------------------------------------------------------------------ -/
/- C9: lexer error policy. -/

theorem takeWhile_ne_of_not_mem (a : Char) (l : List Char) (h : a ∉ l) :
    l.takeWhile (fun x => x != a) = l := by
  induction l with
  | nil => rfl
  | cons b bs ih =>
      rw [List.mem_cons, not_or] at h
      have hba : (b != a) = true := bne_iff_ne.mpr (fun he => h.1 he.symm)
      simp [List.takeWhile_cons, hba, ih h.2]

theorem dropWhile_ne_of_not_mem (a : Char) (l : List Char) (h : a ∉ l) :
    l.dropWhile (fun x => x != a) = [] := by
  induction l with
  | nil => rfl
  | cons b bs ih =>
      rw [List.mem_cons, not_or] at h
      have hba : (b != a) = true := bne_iff_ne.mpr (fun he => h.1 he.symm)
      simp [List.dropWhile_cons, hba, ih h.2]

/-- An unrecognized character reaches the switch default of scanToken,
which emits nothing ("Error handling would go here", lexer.cpp:135-137):
the input advances by one column and the token list is untouched. -/
theorem scanStep_unrecognized (c : Char) (cs : List Char) (line col : Nat)
    (tokens : List Tok) (h : recognizedStart c = false) :
    scanStep c cs line col tokens = (cs, line, col + 1, tokens) := by
  have hx : ∀ d : Char, recognizedStart d = true → ¬(c = d) := fun d hd he => by
    subst he; rw [h] at hd; exact Bool.noConfusion hd
  have hdig : ¬(isDigitC c = true) := fun hd => by
    have hr : recognizedStart c = true := by simp [recognizedStart, hd]
    rw [h] at hr; exact Bool.noConfusion hr
  have halpha : ¬(isAlphaC c = true) := fun hd => by
    have hr : recognizedStart c = true := by simp [recognizedStart, hd]
    rw [h] at hr; exact Bool.noConfusion hr
  simp only [scanStep]
  rw [if_neg (hx '(' (by decide)), if_neg (hx ')' (by decide)),
      if_neg (hx '\x7b' (by decide)), if_neg (hx '\x7d' (by decide)),
      if_neg (hx '[' (by decide)), if_neg (hx ']' (by decide)),
      if_neg (hx ',' (by decide)), if_neg (hx '.' (by decide)),
      if_neg (hx ';' (by decide)), if_neg (hx ':' (by decide)),
      if_neg (hx '+' (by decide)), if_neg (hx '*' (by decide)),
      if_neg (hx '/' (by decide)), if_neg (hx '%' (by decide)),
      if_neg (hx '-' (by decide)), if_neg (hx '!' (by decide)),
      if_neg (hx '=' (by decide)), if_neg (hx '<' (by decide)),
      if_neg (hx '>' (by decide)), if_neg (hx '&' (by decide)),
      if_neg (hx '|' (by decide)), if_neg (hx ' ' (by decide)),
      if_neg (hx '\r' (by decide)), if_neg (hx '\t' (by decide)),
      if_neg (hx '\n' (by decide)), if_neg (hx '"' (by decide)),
      if_neg hdig, if_neg halpha]

/-- An unterminated string consumes the rest of the input and returns
without emitting a token or an error (lexer.cpp:148-151). -/
theorem scanStep_unterminated (cs : List Char) (line col : Nat)
    (tokens : List Tok) (h : '"' ∉ cs) :
    scanStep '"' cs line col tokens
      = ([], line + cs.count '\n', col + 1 + cs.length, tokens) := by
  simp only [scanStep]
  rw [if_neg (by decide : ¬('"' : Char) = '('),
      if_neg (by decide : ¬('"' : Char) = ')'),
      if_neg (by decide : ¬('"' : Char) = '\x7b'),
      if_neg (by decide : ¬('"' : Char) = '\x7d'),
      if_neg (by decide : ¬('"' : Char) = '['),
      if_neg (by decide : ¬('"' : Char) = ']'),
      if_neg (by decide : ¬('"' : Char) = ','),
      if_neg (by decide : ¬('"' : Char) = '.'),
      if_neg (by decide : ¬('"' : Char) = ';'),
      if_neg (by decide : ¬('"' : Char) = ':'),
      if_neg (by decide : ¬('"' : Char) = '+'),
      if_neg (by decide : ¬('"' : Char) = '*'),
      if_neg (by decide : ¬('"' : Char) = '/'),
      if_neg (by decide : ¬('"' : Char) = '%'),
      if_neg (by decide : ¬('"' : Char) = '-'),
      if_neg (by decide : ¬('"' : Char) = '!'),
      if_neg (by decide : ¬('"' : Char) = '='),
      if_neg (by decide : ¬('"' : Char) = '<'),
      if_neg (by decide : ¬('"' : Char) = '>'),
      if_neg (by decide : ¬('"' : Char) = '&'),
      if_neg (by decide : ¬('"' : Char) = '|'),
      if_neg (by decide : ¬('"' : Char) = ' '),
      if_neg (by decide : ¬('"' : Char) = '\r'),
      if_neg (by decide : ¬('"' : Char) = '\t'),
      if_neg (by decide : ¬('"' : Char) = '\n'),
      takeWhile_ne_of_not_mem _ _ h, dropWhile_ne_of_not_mem _ _ h]
  rfl

/-- Counterexample to C9 as stated: scanning drops offending input
silently instead of surfacing any error.  The unrecognized `@` in `a@b`
disappears — the token stream is two identifiers and end-of-input, with
no error of any kind (scanTokens has no error channel at all) — and the
unterminated string `"ab` produces nothing but the end-of-input token. -/
theorem C9_counterexample :
    scanTokens "a@b" = [⟨.IDENTIFIER, "a", 1, 1⟩, ⟨.IDENTIFIER, "b", 1, 3⟩,
                        ⟨.EOF_TOKEN, "", 1, 4⟩]
    ∧ scanTokens "\"ab" = [⟨.EOF_TOKEN, "", 1, 4⟩] :=
  ⟨rfl, rfl⟩

/-- C9 as amended.  Scanning never surfaces a LexError: an input character
that is not part of any token is silently skipped (the scan continues on
the rest of the input with only the column advanced, emitting nothing),
and an unterminated string consumes the rest of the input and produces
only the end-of-input token. -/
theorem C9_amended :
    (∀ (fuel : Nat) (c : Char) (cs : List Char) (line col : Nat)
        (tokens : List Tok),
        recognizedStart c = false →
        scanLoop (fuel + 1) (c :: cs) line col tokens
          = scanLoop fuel cs line (col + 1) tokens)
    ∧ (∀ (fuel : Nat) (cs : List Char) (line col : Nat) (tokens : List Tok),
        '"' ∉ cs →
        scanLoop (fuel + 1) ('"' :: cs) line col tokens
          = tokens ++ [⟨.EOF_TOKEN, "", line + cs.count '\n',
                        col + 1 + cs.length⟩]) := by
  constructor
  · intro fuel c cs line col tokens h
    simp only [scanLoop, scanStep_unrecognized c cs line col tokens h]
  · intro fuel cs line col tokens h
    simp only [scanLoop, scanStep_unterminated cs line col tokens h]

/-- Witness for C9 as amended: scanning `@` skips it without a token, and
scanning the unterminated `"ab` yields only the end-of-input token. -/
theorem C9_witness :
    scanLoop 1 ['@'] 1 1 [] = scanLoop 0 [] 1 2 []
    ∧ scanLoop 1 ['"', 'a', 'b'] 1 1 [] = [⟨.EOF_TOKEN, "", 1, 4⟩] := by
  constructor
  · exact C9_amended.1 0 '@' [] 1 1 [] rfl
  · exact C9_amended.2 0 ['a', 'b'] 1 1 [] (by decide)

end DariX
